import Mathlib

/-!
Shallow embedding of `dimfeld/codemirror-json5` (file `src/index.ts`):
a JSON5 language-integration layer for CodeMirror consisting of a parse
cache (`json5ParseCache`), a linter adapter (`json5ParseLinter` with
`handleParseError`) and a cursor-path state field (`jsonCursorPath`).

External collaborators are modelled by their documented behaviour:
* `JSON5.parse` is an abstract fallible function
  `String → Except JsError α` (a thrown exception becomes `Except.error`);
* CodeMirror `Text` is modelled by a `String` whose line breaks are
  newline characters; `Text.line(n)` throws a `RangeError` for an
  out-of-range 1-based line number, modelled by `Except Unit`;
* `nodeAtCursor` / `getPathAtNode` live in `src/editor.ts`, which is not
  part of the sources here; the cursor-path claims only concern the
  `update` body in `index.ts`, so the two helpers are abstract parameters.

Propagated JavaScript exceptions are modelled by `Except Unit`.
-/

namespace CodemirrorJson5

/-- Severity of an editor diagnostic (the source only ever emits `error`). -/
inductive Severity where
  | error
  | warning
  | info
  | hint
deriving DecidableEq, Repr

/-- An editor diagnostic `{ from, to, message, severity }`.  The JavaScript
field names `from` and `to` are reserved in Lean, hence `dfrom` / `dto`.
Positions are JavaScript numbers and may in principle be negative, hence
`Int`. -/
structure Diagnostic where
  dfrom : Int
  dto : Int
  message : String
  severity : Severity
deriving DecidableEq, Repr

/-- Models a caught JavaScript `Error | Json5SyntaxError` value: a message
plus the `lineNumber` / `columnNumber` fields, which are `none` when the
field is absent from the object (the source tests presence with the
JavaScript `in` operator). -/
structure JsError where
  message : String
  lineNumber : Option Nat
  columnNumber : Option Nat
deriving DecidableEq, Repr

/-! ### Document model: a CodeMirror `Text` as a `String`

CodeMirror documents use the newline character as the only line break;
`doc.lines` is the newline count plus one, `doc.line(n)` is 1-based and
throws a `RangeError` when `n` is out of range, and `doc.length` is the
character count. -/

/-- Start offsets of every line after the first: each position directly
after a newline character.  `i` is the offset of the head of the list. -/
def newlineStartsAux : Nat → List Char → List Nat
  | _, [] => []
  | i, c :: cs =>
    if c = '\n' then (i + 1) :: newlineStartsAux (i + 1) cs
    else newlineStartsAux (i + 1) cs

/-- Start offsets of all lines of the document, in order. -/
def lineStarts (doc : String) : List Nat :=
  0 :: newlineStartsAux 0 doc.data

/-- Number of lines of the document (newline count plus one), as in
CodeMirror `doc.lines`. -/
def docLines (doc : String) : Nat :=
  (lineStarts doc).length

/-- Start offset of the 1-based line `n`; defaults to 0 out of range (it is
only used under the range guard of `docLineFrom`). -/
def lineStartOffset (doc : String) (n : Nat) : Nat :=
  ((lineStarts doc).get? (n - 1)).getD 0

/-- Models CodeMirror `doc.line(n).from`: the start offset of the 1-based
line `n`, throwing a `RangeError` (here `Except.error ()`) when `n` is out
of the range `1 .. doc.lines`. -/
def docLineFrom (doc : String) (n : Nat) : Except Unit Nat :=
  if 1 ≤ n ∧ n ≤ docLines doc then Except.ok (lineStartOffset doc n)
  else Except.error ()

/-- The clamped error position of `handleParseError`
(`index.ts` line 75): `doc.line(lineNumber).from + columnNumber - 1`,
clamped to not exceed the document length. -/
def clampedErrPos (doc : String) (ln col : Nat) : Int :=
  min ((lineStartOffset doc ln : Int) + (col : Int) - 1) (doc.length : Int)

/-- `handleParseError` (`index.ts` lines 72–86).  When the error exposes
both a `lineNumber` and a `columnNumber` field, the position is
`doc.line(e.lineNumber).from + e.columnNumber - 1` clamped by
`doc.length`; the uncaught `RangeError` of `doc.line` propagates
(`Except.error`).  Otherwise the position stays 0.  Returns a single
zero-width error diagnostic carrying the raw message. -/
def handleParseError (doc : String) (e : JsError) : Except Unit (List Diagnostic) :=
  match e.lineNumber, e.columnNumber with
  | some ln, some col =>
    match docLineFrom doc ln with
    | Except.ok _ =>
      let pos : Int := clampedErrPos doc ln col
      Except.ok [{ dfrom := pos, dto := pos, message := e.message, severity := Severity.error }]
    | Except.error u => Except.error u
  | _, _ =>
    Except.ok [{ dfrom := 0, dto := 0, message := e.message, severity := Severity.error }]

/-! ### Editor state, transactions and the parse cache -/

/-- The primary selection range; only its `to` end is used by the source.
`to` is reserved in Lean, hence `toEnd`. -/
structure SelRange where
  toEnd : Nat
deriving DecidableEq, Repr

/-- The selection of an editor state; `main` is the primary range. -/
structure EditorSelection where
  main : SelRange
deriving DecidableEq, Repr

/-- The editor state resulting from a transaction: its document and its
selection. -/
structure EditorState where
  doc : String
  selection : EditorSelection
deriving DecidableEq, Repr

/-- A CodeMirror transaction as used by the source: whether the document
text changed, and the resulting state. -/
structure Transaction where
  docChanged : Bool
  state : EditorState
deriving DecidableEq, Repr

/-- `tx.newDoc`: the document produced by the transaction, which is the
document of the resulting state. -/
def Transaction.newDoc (tx : Transaction) : String :=
  tx.state.doc

/-- The cache value `Json5ParseCache` (`index.ts` lines 116–119):
`err` models `Json5SyntaxError | null` and `obj` models
`unknown | undefined` (`none` is `undefined`). -/
structure Json5ParseCache (α : Type) where
  err : Option JsError
  obj : Option α
deriving DecidableEq, Repr

/-- `json5ParseCache.create` (`index.ts` lines 124–126): the field starts
out `null`. -/
def json5ParseCacheCreate (α : Type) : Option (Json5ParseCache α) :=
  none

/-- `json5ParseCache.update` (`index.ts` lines 127–141), parametric in the
`JSON5.parse` function.  If the document did not change, the old value is
returned as is.  Otherwise the whole new document is parsed: on success
the new value is `{ err: null, obj: parsed }`; on failure the error is
captured and the old parsed object (if any) is retained. -/
def json5ParseCacheUpdate {α : Type} (parse : String → Except JsError α)
    (oldValue : Option (Json5ParseCache α)) (tx : Transaction) :
    Option (Json5ParseCache α) :=
  if !tx.docChanged then oldValue
  else
    match parse tx.newDoc with
    | Except.ok parsed => some { err := none, obj := some parsed }
    | Except.error e => some { err := some e, obj := oldValue.bind Json5ParseCache.obj }

/-! ### The linter adapter -/

/-- The slice of an `EditorView` that the linter reads: the document text
and the value of `view.state.field(json5ParseCache, false)`, where `none`
covers both a missing field and a `null` field value (both are falsy in
the JavaScript `if (cached)` test). -/
structure EditorView (α : Type) where
  doc : String
  cached : Option (Json5ParseCache α)

/-- A caller-supplied structure linter `(view, parsed) => Diagnostic[]`.
The source also admits a `Promise` result; only the synchronous shape is
modelled. -/
def StructureLinter (α : Type) : Type :=
  EditorView α → α → List Diagnostic

/-- `structureLinter?.(view, parsed) ?? []`: apply the optional callback,
defaulting to the empty diagnostic list when no callback was supplied. -/
def applyStructureLinter {α : Type} (structureLinter : Option (StructureLinter α))
    (view : EditorView α) (parsed : α) : List Diagnostic :=
  match structureLinter with
  | some f => f view parsed
  | none => []

/-- The fall-through of the linter (`index.ts` lines 106–111): a fresh
whole-document parse; on success the structure linter (if any) runs on the
result, on failure `handleParseError` builds the diagnostic.  A
`RangeError` thrown by `doc.line` inside `handleParseError` happens inside
the `catch` block, so it propagates. -/
def json5ParseLinterFresh {α : Type} (parse : String → Except JsError α)
    (structureLinter : Option (StructureLinter α)) (view : EditorView α) :
    Except Unit (List Diagnostic) :=
  match parse view.doc with
  | Except.ok parsed => Except.ok (applyStructureLinter structureLinter view parsed)
  | Except.error e => handleParseError view.doc e

/-- The linter returned by `json5ParseLinter` (`index.ts` lines 93–113):
with a cached error it reports that error; with a cached parsed object it
runs the structure linter on it; otherwise (no cache entry, or an entry
with neither error nor object) it falls through to a fresh parse. -/
def json5ParseLinter {α : Type} (parse : String → Except JsError α)
    (structureLinter : Option (StructureLinter α)) (view : EditorView α) :
    Except Unit (List Diagnostic) :=
  match view.cached with
  | some cached =>
    match cached.err with
    | some e => handleParseError view.doc e
    | none =>
      match cached.obj with
      | some obj => Except.ok (applyStructureLinter structureLinter view obj)
      | none => json5ParseLinterFresh parse structureLinter view
  | none => json5ParseLinterFresh parse structureLinter view

/-! ### The cursor-path state field -/

/-- A segment of a structural path: a property name or an array index. -/
inductive PathSeg where
  | key (s : String)
  | idx (n : Nat)
deriving DecidableEq, Repr

/-- The value of the `jsonCursorPath` field (`index.ts` lines 144–147):
the structural path under the cursor and the resolved syntax node, each
possibly `null`.  The node type is abstract. -/
structure JsonCursorPath (ν : Type) where
  path : Option (List PathSeg)
  node : Option ν
deriving DecidableEq, Repr

/-- `jsonCursorPath.create` (`index.ts` lines 152–154). -/
def jsonCursorPathCreate (ν : Type) : JsonCursorPath ν :=
  { path := none, node := none }

/-- `jsonCursorPath.update` (`index.ts` lines 155–163), parametric in the
helpers `nodeAtCursor` and `getPathAtNode` of `src/editor.ts` (not among
the sources).  The cursor position is the `to` end of the primary
selection of the resulting state; the old value is never consulted. -/
def jsonCursorPathUpdate {ν : Type} (nodeAtCursor : EditorState → Nat → Option ν)
    (getPathAtNode : EditorState → ν → Option (List PathSeg))
    (oldValue : JsonCursorPath ν) (tx : Transaction) : JsonCursorPath ν :=
  let cursorPos := tx.state.selection.main.toEnd
  let currentNode := nodeAtCursor tx.state cursorPos
  let currentPath :=
    match currentNode with
    | some n => getPathAtNode tx.state n
    | none => none
  { path := currentPath, node := currentNode }

/-! ### Concrete sample values used by the witnesses -/

/-- A sample parse error exposing position fields. -/
def sampleErr : JsError :=
  { message := "bad", lineNumber := some 1, columnNumber := some 2 }

/-- A sample parse function that always fails with `sampleErr`. -/
def sampleParseFail : String → Except JsError Nat :=
  fun _ => Except.error sampleErr

/-- A sample parse function that always succeeds with the value 7. -/
def sampleParseOk : String → Except JsError Nat :=
  fun _ => Except.ok 7

/-- A sample transaction with the given change flag and new document. -/
def sampleTx (b : Bool) (doc : String) : Transaction :=
  { docChanged := b, state := { doc := doc, selection := { main := { toEnd := 0 } } } }

/-- A sample cache value holding the parsed object 5 and no error. -/
def sampleCacheVal : Json5ParseCache Nat :=
  { err := none, obj := some 5 }

/-! ### C1 – C3: the parse cache update -/

/-- C1: on a text-changing transaction whose new document fails to parse,
the cache update returns the new parse error together with the previous
parsed value (`none` when there was no previous value). -/
theorem json5ParseCacheUpdate_failure {α : Type} (parse : String → Except JsError α)
    (oldValue : Option (Json5ParseCache α)) (tx : Transaction) (e : JsError)
    (hchanged : tx.docChanged = true) (hparse : parse tx.newDoc = Except.error e) :
    json5ParseCacheUpdate parse oldValue tx
      = some { err := some e, obj := oldValue.bind Json5ParseCache.obj } := by
  simp [json5ParseCacheUpdate, hchanged, hparse]

/-- Witness for C1 at concrete inputs: the old value 5 is retained next to
the new error. -/
theorem json5ParseCacheUpdate_failure_witness :
    json5ParseCacheUpdate sampleParseFail (some sampleCacheVal) (sampleTx true "nope")
      = some { err := some sampleErr, obj := some 5 } :=
  json5ParseCacheUpdate_failure sampleParseFail (some sampleCacheVal)
    (sampleTx true "nope") sampleErr rfl rfl

/-- C2: a transaction that does not change the document text returns the
previous cache state itself, and the result does not depend on the parse
function (no reparse happens). -/
theorem json5ParseCacheUpdate_noDocChange {α : Type}
    (parse parse2 : String → Except JsError α)
    (oldValue : Option (Json5ParseCache α)) (tx : Transaction)
    (hchanged : tx.docChanged = false) :
    json5ParseCacheUpdate parse oldValue tx = oldValue ∧
      json5ParseCacheUpdate parse2 oldValue tx = json5ParseCacheUpdate parse oldValue tx := by
  constructor <;> simp [json5ParseCacheUpdate, hchanged]

/-- Witness for C2 at concrete inputs. -/
theorem json5ParseCacheUpdate_noDocChange_witness :
    json5ParseCacheUpdate sampleParseFail (some sampleCacheVal) (sampleTx false "x")
        = some sampleCacheVal ∧
      json5ParseCacheUpdate sampleParseOk (some sampleCacheVal) (sampleTx false "x")
        = json5ParseCacheUpdate sampleParseFail (some sampleCacheVal) (sampleTx false "x") :=
  json5ParseCacheUpdate_noDocChange sampleParseFail sampleParseOk
    (some sampleCacheVal) (sampleTx false "x") rfl

/-- C3: on a text-changing transaction whose new document parses
successfully, the cache update returns `{ err := none, obj := parsed }`,
and the result is the same whatever the previous cache state was. -/
theorem json5ParseCacheUpdate_success {α : Type} (parse : String → Except JsError α)
    (oldValue oldValue2 : Option (Json5ParseCache α)) (tx : Transaction) (v : α)
    (hchanged : tx.docChanged = true) (hparse : parse tx.newDoc = Except.ok v) :
    json5ParseCacheUpdate parse oldValue tx = some { err := none, obj := some v } ∧
      json5ParseCacheUpdate parse oldValue2 tx = json5ParseCacheUpdate parse oldValue tx := by
  constructor <;> simp [json5ParseCacheUpdate, hchanged, hparse]

/-- Witness for C3 at concrete inputs: the previously retained value 5 is
discarded, and a different previous state gives the same result. -/
theorem json5ParseCacheUpdate_success_witness :
    json5ParseCacheUpdate sampleParseOk (some sampleCacheVal) (sampleTx true "7")
        = some { err := none, obj := some 7 } ∧
      json5ParseCacheUpdate sampleParseOk none (sampleTx true "7")
        = json5ParseCacheUpdate sampleParseOk (some sampleCacheVal) (sampleTx true "7") :=
  json5ParseCacheUpdate_success sampleParseOk (some sampleCacheVal) none
    (sampleTx true "7") 7 rfl rfl

/-! ### Helper lemmas about `handleParseError` -/

/-- For an in-range 1-based line number, `doc.line` returns normally. -/
theorem docLineFrom_inRange (doc : String) (ln : Nat) (h1 : 1 ≤ ln)
    (h2 : ln ≤ docLines doc) :
    docLineFrom doc ln = Except.ok (lineStartOffset doc ln) := by
  simp [docLineFrom, h1, h2]

/-- With both position fields present and an in-range line number,
`handleParseError` returns the single clamped zero-width diagnostic. -/
theorem handleParseError_inRange (doc : String) (e : JsError) (ln col : Nat)
    (hln : e.lineNumber = some ln) (hcol : e.columnNumber = some col)
    (h1 : 1 ≤ ln) (h2 : ln ≤ docLines doc) :
    handleParseError doc e
      = Except.ok [{ dfrom := clampedErrPos doc ln col, dto := clampedErrPos doc ln col,
                     message := e.message, severity := Severity.error }] := by
  simp [handleParseError, hln, hcol, docLineFrom_inRange doc ln h1 h2]

/-- Without both position fields, `handleParseError` returns the single
zero-width diagnostic at offset 0. -/
theorem handleParseError_noPos (doc : String) (e : JsError)
    (hfields : e.lineNumber = none ∨ e.columnNumber = none) :
    handleParseError doc e
      = Except.ok [{ dfrom := 0, dto := 0, message := e.message,
                     severity := Severity.error }] := by
  rcases hfields with h | h
  · simp [handleParseError, h]
  · rcases hl : e.lineNumber with _ | ln
    · simp [handleParseError, hl]
    · simp [handleParseError, hl, h]

/-! ### C4 and C9: the positional error diagnostic -/

/-- C4: whenever the linter runs against a parse error exposing 1-based
position fields with an in-range line number — from the cache (`view1`)
or from its own fresh failing parse (`view2`) — it returns exactly one
zero-width diagnostic of severity error, carrying the raw message, at
offset `lineStartOffset ln + col - 1` clamped by the document length. -/
theorem json5ParseLinter_error_diag {α : Type} (parse : String → Except JsError α)
    (sl : Option (StructureLinter α)) (e : JsError) (ln col : Nat)
    (view1 view2 : EditorView α) (c : Json5ParseCache α)
    (hln : e.lineNumber = some ln) (hcol : e.columnNumber = some col)
    (h1 : 1 ≤ ln) (hr1 : ln ≤ docLines view1.doc) (hr2 : ln ≤ docLines view2.doc)
    (hc1 : view1.cached = some c) (he1 : c.err = some e)
    (hc2 : view2.cached = none) (hp2 : parse view2.doc = Except.error e) :
    json5ParseLinter parse sl view1
        = Except.ok [{ dfrom := clampedErrPos view1.doc ln col,
                       dto := clampedErrPos view1.doc ln col,
                       message := e.message, severity := Severity.error }] ∧
      json5ParseLinter parse sl view2
        = Except.ok [{ dfrom := clampedErrPos view2.doc ln col,
                       dto := clampedErrPos view2.doc ln col,
                       message := e.message, severity := Severity.error }] ∧
      clampedErrPos view1.doc ln col ≤ (view1.doc.length : Int) ∧
      clampedErrPos view2.doc ln col ≤ (view2.doc.length : Int) := by
  refine ⟨?_, ?_, min_le_right _ _, min_le_right _ _⟩
  · simp [json5ParseLinter, hc1, he1,
      handleParseError_inRange view1.doc e ln col hln hcol h1 hr1]
  · simp [json5ParseLinter, hc2, json5ParseLinterFresh, hp2,
      handleParseError_inRange view2.doc e ln col hln hcol h1 hr2]

/-- A parse error located on line 2, column 2, used by the C4 witness. -/
def lineErr : JsError :=
  { message := "m", lineNumber := some 2, columnNumber := some 2 }

/-- A view whose cache holds `lineErr` (C4 witness, cached case). -/
def errView1 : EditorView Nat :=
  { doc := "ab\ncd", cached := some { err := some lineErr, obj := some 5 } }

/-- A view with no cache entry over the same document (C4 witness, fresh
case). -/
def errView2 : EditorView Nat :=
  { doc := "ab\ncd", cached := none }

/-- A parse function that always fails with `lineErr`. -/
def parseFailLine : String → Except JsError Nat :=
  fun _ => Except.error lineErr

/-- Witness for C4 at concrete inputs: document `ab`, newline, `cd`;
error on line 2, column 2. -/
theorem json5ParseLinter_error_diag_witness :
    json5ParseLinter parseFailLine none errView1
        = Except.ok [{ dfrom := clampedErrPos errView1.doc 2 2,
                       dto := clampedErrPos errView1.doc 2 2,
                       message := lineErr.message, severity := Severity.error }] ∧
      json5ParseLinter parseFailLine none errView2
        = Except.ok [{ dfrom := clampedErrPos errView2.doc 2 2,
                       dto := clampedErrPos errView2.doc 2 2,
                       message := lineErr.message, severity := Severity.error }] ∧
      clampedErrPos errView1.doc 2 2 ≤ (errView1.doc.length : Int) ∧
      clampedErrPos errView2.doc 2 2 ≤ (errView2.doc.length : Int) :=
  json5ParseLinter_error_diag parseFailLine none lineErr 2 2 errView1 errView2
    { err := some lineErr, obj := some 5 } rfl rfl (by decide) (by decide) (by decide)
    rfl rfl rfl rfl

/-- C9: for a parse error that does not expose both a `lineNumber` and a
`columnNumber` field, the linter — from the cache (`view1`) or from its
own fresh failing parse (`view2`) — still returns exactly one zero-width
error diagnostic, positioned at document offset 0. -/
theorem json5ParseLinter_error_noPos {α : Type} (parse : String → Except JsError α)
    (sl : Option (StructureLinter α)) (e : JsError)
    (view1 view2 : EditorView α) (c : Json5ParseCache α)
    (hfields : e.lineNumber = none ∨ e.columnNumber = none)
    (hc1 : view1.cached = some c) (he1 : c.err = some e)
    (hc2 : view2.cached = none) (hp2 : parse view2.doc = Except.error e) :
    json5ParseLinter parse sl view1
        = Except.ok [{ dfrom := 0, dto := 0, message := e.message,
                       severity := Severity.error }] ∧
      json5ParseLinter parse sl view2
        = Except.ok [{ dfrom := 0, dto := 0, message := e.message,
                       severity := Severity.error }] := by
  constructor
  · simp [json5ParseLinter, hc1, he1, handleParseError_noPos view1.doc e hfields]
  · simp [json5ParseLinter, hc2, json5ParseLinterFresh, hp2,
      handleParseError_noPos view2.doc e hfields]

/-- A parse error carrying no position fields (a plain `Error`). -/
def bareErr : JsError :=
  { message := "boom", lineNumber := none, columnNumber := none }

/-- A view whose cache holds `bareErr` (C9 witness, cached case). -/
def bareErrView1 : EditorView Nat :=
  { doc := "zz", cached := some { err := some bareErr, obj := none } }

/-- A view with no cache entry (C9 witness, fresh case). -/
def bareErrView2 : EditorView Nat :=
  { doc := "zz", cached := none }

/-- A parse function that always fails with `bareErr`. -/
def parseFailBare : String → Except JsError Nat :=
  fun _ => Except.error bareErr

/-- Witness for C9 at concrete inputs. -/
theorem json5ParseLinter_error_noPos_witness :
    json5ParseLinter parseFailBare none bareErrView1
        = Except.ok [{ dfrom := 0, dto := 0, message := bareErr.message,
                       severity := Severity.error }] ∧
      json5ParseLinter parseFailBare none bareErrView2
        = Except.ok [{ dfrom := 0, dto := 0, message := bareErr.message,
                       severity := Severity.error }] :=
  json5ParseLinter_error_noPos parseFailBare none bareErr bareErrView1 bareErrView2
    { err := some bareErr, obj := none } (Or.inl rfl) rfl rfl rfl rfl

/-! ### C5: exception safety of the public operations -/

/-- A cached parse error whose reported line number (2) lies outside the
line range of the one-line document of `badLineView`. -/
def badLineErr : JsError :=
  { message := "oops", lineNumber := some 2, columnNumber := some 1 }

/-- A view over the one-line document consisting of one opening brace,
whose cache holds `badLineErr`. -/
def badLineView : EditorView Nat :=
  { doc := "\x7b", cached := some { err := some badLineErr, obj := none } }

/-- C5 counterexample: with a cached parse error whose reported line
number lies outside the document line range, the lint function does not
return normally — the `RangeError` thrown by `doc.line` inside
`handleParseError` propagates out of it. -/
theorem json5ParseLinter_rangeError_escape :
    json5ParseLinter sampleParseOk none badLineView = Except.error () := rfl

/-- The side condition under which `handleParseError` cannot throw: when
the error exposes both position fields, its line number lies within the
1-based line range of the document.  Real JSON5 parse errors over
documents whose only line breaks are newline characters satisfy this. -/
def errLineInRange (doc : String) (e : JsError) : Prop :=
  match e.lineNumber, e.columnNumber with
  | some ln, some _ => 1 ≤ ln ∧ ln ≤ docLines doc
  | _, _ => True

/-- Under the line-range side condition `handleParseError` returns
normally. -/
theorem handleParseError_total (doc : String) (e : JsError)
    (h : errLineInRange doc e) :
    ∃ ds, handleParseError doc e = Except.ok ds := by
  rcases hl : e.lineNumber with _ | ln
  · exact ⟨_, handleParseError_noPos doc e (Or.inl hl)⟩
  · rcases hc : e.columnNumber with _ | col
    · exact ⟨_, handleParseError_noPos doc e (Or.inr hc)⟩
    · have h2 : 1 ≤ ln ∧ ln ≤ docLines doc := by
        simpa [errLineInRange, hl, hc] using h
      exact ⟨_, handleParseError_inRange doc e ln col hl hc h2.1 h2.2⟩

/-- Under the line-range side condition on fresh parse errors, the
fall-through fresh parse of the linter returns normally. -/
theorem json5ParseLinterFresh_total {α : Type} (parse : String → Except JsError α)
    (sl : Option (StructureLinter α)) (view : EditorView α)
    (hfresh : ∀ e, parse view.doc = Except.error e → errLineInRange view.doc e) :
    ∃ ds, json5ParseLinterFresh parse sl view = Except.ok ds := by
  cases hp : parse view.doc with
  | ok v =>
    exact ⟨applyStructureLinter sl view v, by simp [json5ParseLinterFresh, hp]⟩
  | error e =>
    obtain ⟨ds, hds⟩ := handleParseError_total view.doc e (hfresh e hp)
    exact ⟨ds, by simp [json5ParseLinterFresh, hp, hds]⟩

/-- C5 amended: the cache update always returns normally (a parse failure
is captured into the error field), and the lint function returns normally
provided every parse error it handles — a cached one or one raised by its
own fresh parse — has, when it exposes both position fields, a line number
within the document line range.  (Without that proviso the lint function
can throw: see the counterexample.) -/
theorem json5_noEscape_amended {α : Type} (parse : String → Except JsError α)
    (sl : Option (StructureLinter α)) (view : EditorView α)
    (oldValue : Option (Json5ParseCache α)) (tx : Transaction)
    (hcached : ∀ c e, view.cached = some c → c.err = some e → errLineInRange view.doc e)
    (hfresh : ∀ e, parse view.doc = Except.error e → errLineInRange view.doc e) :
    (∃ ds, json5ParseLinter parse sl view = Except.ok ds) ∧
      (json5ParseCacheUpdate parse oldValue tx = oldValue ∨
        ∃ st, json5ParseCacheUpdate parse oldValue tx = some st) := by
  constructor
  · cases hc : view.cached with
    | none =>
      obtain ⟨ds, hds⟩ := json5ParseLinterFresh_total parse sl view hfresh
      exact ⟨ds, by simp [json5ParseLinter, hc, hds]⟩
    | some c =>
      cases he : c.err with
      | some e =>
        obtain ⟨ds, hds⟩ := handleParseError_total view.doc e (hcached c e hc he)
        exact ⟨ds, by simp [json5ParseLinter, hc, he, hds]⟩
      | none =>
        cases ho : c.obj with
        | some o =>
          exact ⟨applyStructureLinter sl view o, by simp [json5ParseLinter, hc, he, ho]⟩
        | none =>
          obtain ⟨ds, hds⟩ := json5ParseLinterFresh_total parse sl view hfresh
          exact ⟨ds, by simp [json5ParseLinter, hc, he, ho, hds]⟩
  · cases htx : tx.docChanged with
    | false => exact Or.inl (by simp [json5ParseCacheUpdate, htx])
    | true =>
      cases hp : parse tx.newDoc with
      | ok v =>
        exact Or.inr ⟨{ err := none, obj := some v },
          by simp [json5ParseCacheUpdate, htx, hp]⟩
      | error e =>
        exact Or.inr ⟨{ err := some e, obj := oldValue.bind Json5ParseCache.obj },
          by simp [json5ParseCacheUpdate, htx, hp]⟩

/-- A view whose cache holds `sampleErr`, which points at line 1 of its
one-line document (C5 witness). -/
def inRangeErrView : EditorView Nat :=
  { doc := "x", cached := some { err := some sampleErr, obj := none } }

/-- Witness for the amended C5 at concrete inputs. -/
theorem json5_noEscape_amended_witness :
    (∃ ds, json5ParseLinter sampleParseFail none inRangeErrView = Except.ok ds) ∧
      (json5ParseCacheUpdate sampleParseFail (some sampleCacheVal) (sampleTx true "x")
          = some sampleCacheVal ∨
        ∃ st, json5ParseCacheUpdate sampleParseFail (some sampleCacheVal) (sampleTx true "x")
          = some st) :=
  json5_noEscape_amended sampleParseFail none inRangeErrView (some sampleCacheVal)
    (sampleTx true "x")
    (by
      intro c e hc he
      have hc2 : c = { err := some sampleErr, obj := none } := by
        simpa [inRangeErrView] using hc.symm
      subst hc2
      have he2 : e = sampleErr := by simpa using he.symm
      subst he2
      simp [errLineInRange, sampleErr, inRangeErrView]
      decide)
    (by
      intro e hp
      have he2 : e = sampleErr := by
        simpa [sampleParseFail] using hp.symm
      subst he2
      simp [errLineInRange, sampleErr, inRangeErrView]
      decide)

/-! ### C6 and C7: the linter with and without a usable cache entry -/

/-- C6: with no cache entry the linter performs a fresh whole-document
parse; on success it runs the structure linter on the parsed value (the
empty list when none is supplied), and on failure it produces exactly the
diagnostics of the cached-error case for the same error. -/
theorem json5ParseLinter_noCache {α : Type} (parse : String → Except JsError α)
    (sl : Option (StructureLinter α)) (view : EditorView α)
    (hc : view.cached = none) :
    json5ParseLinter parse sl view = json5ParseLinterFresh parse sl view ∧
      (∀ v, parse view.doc = Except.ok v →
        json5ParseLinter parse sl view = Except.ok (applyStructureLinter sl view v)) ∧
      (∀ v : α, applyStructureLinter none view v = []) ∧
      (∀ e, parse view.doc = Except.error e →
        json5ParseLinter parse sl view = handleParseError view.doc e ∧
          json5ParseLinter parse sl view
            = json5ParseLinter parse sl
                { doc := view.doc, cached := some { err := some e, obj := none } }) := by
  refine ⟨by simp [json5ParseLinter, hc], ?_, fun v => rfl, ?_⟩
  · intro v hv
    simp [json5ParseLinter, hc, json5ParseLinterFresh, hv]
  · intro e he
    constructor
    · simp [json5ParseLinter, hc, json5ParseLinterFresh, he]
    · simp [json5ParseLinter, hc, json5ParseLinterFresh, he]

/-- A view with no cache entry over the document `zz` (C6 witness). -/
def noCacheView : EditorView Nat :=
  { doc := "zz", cached := none }

/-- Witness for C6 at concrete inputs: with no cache entry and a failing
fresh parse, the linter agrees with the cached-error case. -/
theorem json5ParseLinter_noCache_witness :
    json5ParseLinter parseFailBare none noCacheView
        = json5ParseLinter parseFailBare none
            { doc := noCacheView.doc, cached := some { err := some bareErr, obj := none } } :=
  ((json5ParseLinter_noCache parseFailBare none noCacheView rfl).2.2.2 bareErr rfl).2

/-- C7: with a cache entry holding a parsed value and no error, the linter
returns exactly the structure-linter diagnostics on that value; without a
callback it returns the empty list, and a callback that always returns the
empty list yields zero diagnostics. -/
theorem json5ParseLinter_cachedValue {α : Type} (parse : String → Except JsError α)
    (sl : Option (StructureLinter α)) (view : EditorView α)
    (c : Json5ParseCache α) (o : α) (f : StructureLinter α)
    (hc : view.cached = some c) (herr : c.err = none) (hobj : c.obj = some o)
    (hf : ∀ w p, f w p = []) :
    json5ParseLinter parse sl view = Except.ok (applyStructureLinter sl view o) ∧
      json5ParseLinter parse none view = Except.ok [] ∧
      json5ParseLinter parse (some f) view = Except.ok [] := by
  refine ⟨?_, ?_, ?_⟩ <;>
    simp [json5ParseLinter, hc, herr, hobj, applyStructureLinter, hf]

/-- A view whose cache holds the parsed value 5 with no error (C7
witness). -/
def cachedValView : EditorView Nat :=
  { doc := "5", cached := some sampleCacheVal }

/-- A structure linter producing one warning diagnostic (C7 witness). -/
def sampleLinterDiag : StructureLinter Nat :=
  fun _ _ => [{ dfrom := 1, dto := 2, message := "structural", severity := Severity.warning }]

/-- A structure linter that always returns the empty list (C7 witness). -/
def emptyLinter : StructureLinter Nat :=
  fun _ _ => []

/-- Witness for C7 at concrete inputs. -/
theorem json5ParseLinter_cachedValue_witness :
    json5ParseLinter sampleParseFail (some sampleLinterDiag) cachedValView
        = Except.ok (applyStructureLinter (some sampleLinterDiag) cachedValView 5) ∧
      json5ParseLinter sampleParseFail none cachedValView = Except.ok [] ∧
      json5ParseLinter sampleParseFail (some emptyLinter) cachedValView = Except.ok [] :=
  json5ParseLinter_cachedValue sampleParseFail (some sampleLinterDiag) cachedValView
    sampleCacheVal 5 emptyLinter rfl rfl rfl (fun _ _ => rfl)

/-! ### C8 and C10: the cursor-path state field -/

/-- C8: the cursor-path update is a function of the resulting state of the
transaction only: two transactions with the same resulting state give the
same result whatever the previous cursor-path values and change flags
were, and the resolved node is looked up at the `to` end of the primary
selection of that state. -/
theorem jsonCursorPathUpdate_recompute {ν : Type}
    (nodeAtCursor : EditorState → Nat → Option ν)
    (getPathAtNode : EditorState → ν → Option (List PathSeg))
    (oldValue oldValue2 : JsonCursorPath ν) (tx tx2 : Transaction)
    (hstate : tx.state = tx2.state) :
    jsonCursorPathUpdate nodeAtCursor getPathAtNode oldValue tx
        = jsonCursorPathUpdate nodeAtCursor getPathAtNode oldValue2 tx2 ∧
      (jsonCursorPathUpdate nodeAtCursor getPathAtNode oldValue tx).node
        = nodeAtCursor tx.state tx.state.selection.main.toEnd := by
  constructor
  · simp [jsonCursorPathUpdate, hstate]
  · rfl

/-- A node-resolution function returning the cursor offset itself (C8
witness). -/
def sampleNodeAt : EditorState → Nat → Option Nat :=
  fun _ p => some p

/-- A path-resolution function returning a one-segment index path (C8 and
C10 witnesses). -/
def samplePathAt : EditorState → Nat → Option (List PathSeg) :=
  fun _ n => some [PathSeg.idx n]

/-- Witness for C8 at concrete inputs: different previous values and
different change flags, same resulting state, same result. -/
theorem jsonCursorPathUpdate_recompute_witness :
    jsonCursorPathUpdate sampleNodeAt samplePathAt (jsonCursorPathCreate Nat)
          (sampleTx true "a")
        = jsonCursorPathUpdate sampleNodeAt samplePathAt
            { path := some [], node := some 9 } (sampleTx false "a") ∧
      (jsonCursorPathUpdate sampleNodeAt samplePathAt (jsonCursorPathCreate Nat)
          (sampleTx true "a")).node
        = sampleNodeAt (sampleTx true "a").state
            (sampleTx true "a").state.selection.main.toEnd :=
  jsonCursorPathUpdate_recompute sampleNodeAt samplePathAt (jsonCursorPathCreate Nat)
    { path := some [], node := some 9 } (sampleTx true "a") (sampleTx false "a") rfl

/-- C10: after any cursor-path update, a null node reference forces a null
path (equivalently, a non-null path implies a non-null resolved node). -/
theorem jsonCursorPathUpdate_node_none_path_none {ν : Type}
    (nodeAtCursor : EditorState → Nat → Option ν)
    (getPathAtNode : EditorState → ν → Option (List PathSeg))
    (oldValue : JsonCursorPath ν) (tx : Transaction)
    (hnode : (jsonCursorPathUpdate nodeAtCursor getPathAtNode oldValue tx).node = none) :
    (jsonCursorPathUpdate nodeAtCursor getPathAtNode oldValue tx).path = none := by
  have hnode2 : nodeAtCursor tx.state tx.state.selection.main.toEnd = none := hnode
  simp [jsonCursorPathUpdate, hnode2]

/-- A node-resolution function that never finds a node (C10 witness). -/
def noneNodeAt : EditorState → Nat → Option Nat :=
  fun _ _ => none

/-- Witness for C10 at concrete inputs. -/
theorem jsonCursorPathUpdate_node_none_path_none_witness :
    (jsonCursorPathUpdate noneNodeAt samplePathAt (jsonCursorPathCreate Nat)
        (sampleTx true "a")).path = none :=
  jsonCursorPathUpdate_node_none_path_none noneNodeAt samplePathAt
    (jsonCursorPathCreate Nat) (sampleTx true "a") rfl

end CodemirrorJson5
